import Mathlib

/-!
Verification development for the conversational-AI query-routing and
SQL-generation pipeline.

The pipeline classifies a free-text user question into one of three routes
(SQL / API / GENERAL), turns SQL-routed questions into executable statements,
validates them through a tolerant JSON critique step, and executes them
against a SQLite store.  External collaborators (the language-model
completion service, the store, and interactive input) are modelled as
explicit function parameters or inductive result values; Python string
methods are modelled by executable functions on `List Char`.
-/

namespace ConvAI

/-! ### Models of the Python `str` methods used by the code -/

/-- Model of Python `str.strip()`: drop whitespace from both ends. -/
def pyStrip (s : String) : String :=
  (((s.toList.dropWhile Char.isWhitespace).reverse).dropWhile Char.isWhitespace).reverse.asString

/-- Model of Python `str.lower()` (ASCII case folding). -/
def pyLower (s : String) : String :=
  (s.toList.map Char.toLower).asString

/-- Model of Python `str.upper()` (ASCII case folding). -/
def pyUpper (s : String) : String :=
  (s.toList.map Char.toUpper).asString

/-- Does `needle` occur as a contiguous sublist of `hay`?  (Model of the
Python `in` operator on strings, on the character-list level.) -/
def subChars : List Char → List Char → Bool
  | needle, [] => needle.isEmpty
  | needle, c :: rest => needle.isPrefixOf (c :: rest) || subChars needle rest

/-- Model of Python `needle in hay` for strings. -/
def pyContains (needle hay : String) : Bool :=
  subChars needle.toList hay.toList

/-- Model of Python `s.isdigit() and int(s)`: `some n` when `s` is a
non-empty string of decimal digits with value `n`, otherwise `none`. -/
def pyInt? (s : String) : Option Nat :=
  let cs := s.toList
  if cs = [] then none
  else if cs.all Char.isDigit then
    some (cs.foldl (fun a c => 10 * a + (c.toNat - 48)) 0)
  else none

/-- Model of Python `sep.join(parts)`. -/
def pyJoin (sep : String) : List String → String
  | [] => ""
  | [p] => p
  | p :: q :: rest => p ++ sep ++ pyJoin sep (q :: rest)

/-- Model of Python `s.find(c)` for a single character: index of the first
occurrence, or `-1` when absent. -/
def str_find (c : Char) (s : String) : Int :=
  match s.toList.findIdx? (· == c) with
  | some i => (i : Int)
  | none => -1

/-- Model of Python `s.rfind(c)` for a single character: index of the last
occurrence, or `-1` when absent. -/
def str_rfind (c : Char) (s : String) : Int :=
  match s.toList.reverse.findIdx? (· == c) with
  | some i => ((s.toList.length - 1 - i : Nat) : Int)
  | none => -1

/-- Model of the Python slice `s[a:b]` (character indices). -/
def strSlice (s : String) (a b : Nat) : String :=
  ((s.toList.drop a).take (b - a)).asString

/-! ### Decimal rendering of naturals (model of Python `f"...{i}"`) -/

/-- Little-endian decimal digits of `n`, with explicit fuel so that the
definition is structural and kernel-reducible. -/
def digitsFuel : Nat → Nat → List Nat
  | 0, _ => []
  | fuel + 1, n => if n = 0 then [] else n % 10 :: digitsFuel fuel (n / 10)

/-- The character for a decimal digit. -/
def digitChar (d : Nat) : Char :=
  Char.ofNat (48 + d)

/-- Decimal representation of a natural number, as Python `str(n)` renders it. -/
def natRepr (n : Nat) : String :=
  if n = 0 then "0" else (((digitsFuel n n).map digitChar).reverse).asString

/-- Value of a little-endian decimal digit list (used to reason about
`natRepr`). -/
def ofDigits10 : List Nat → Nat
  | [] => 0
  | d :: ds => d + 10 * ofDigits10 ds

/-! ### Python exceptions (the ones this pipeline can raise) -/

/-- The Python exceptions relevant to this pipeline.  Each carries the
message text that `str(e)` would produce. -/
inductive PyError
  | valueError (msg : String)
  | typeError (msg : String)
  | jsonDecodeError (msg : String)
  | other (msg : String)
deriving DecidableEq

deriving instance DecidableEq for Except

/-- Model of Python `str(e)` on an exception value. -/
def PyError.message : PyError → String
  | .valueError msg => msg
  | .typeError msg => msg
  | .jsonDecodeError msg => msg
  | .other msg => msg

/-! ### Classifier (`myFirstAi.py`: `QueryType`, `route_query`) -/

/-- The three query routes.  `LLM` is the member whose value is the token
`"GENERAL"`, exactly as in the source enum. -/
inductive QueryType
  | SQL
  | API
  | LLM
deriving DecidableEq

/-- `route_query`, lines 31–65 of `myFirstAi.py`, as a function of the
completion response text: the response content is stripped and looked up as
an enum value (`QueryType(result)`); a non-matching string raises
`ValueError`. -/
def route_query (llm_response : String) : Except PyError QueryType :=
  let result := pyStrip llm_response
  if result = "SQL" then .ok .SQL
  else if result = "API" then .ok .API
  else if result = "GENERAL" then .ok .LLM
  else .error (.valueError result)

/-! ### Validator (`sql_handler.py`: `validate_sql_query`) -/

/-- The structured critique the validator tries to parse out of the
completion response (`sql_handler.py` validation prompt, four JSON arrays). -/
structure Validation where
  strengths : List String
  potential_enhancements : List String
  business_considerations : List String
  suggested_variations : List String
deriving DecidableEq

/-- `validate_sql_query`, lines 254–310 of `sql_handler.py`, as a function of
the completion response text.  `parse` models `json.loads` restricted to the
expected four-field shape (`none` models a `JSONDecodeError`).  Tier 1 parses
the whole stripped response; tier 2 parses the slice from the first `\x7b` to
the last `\x7d` inclusive (Python `response[response.find(...):response.rfind(...)+1]`);
any remaining failure yields `none` — the local `except` clauses mean no
exception escapes. -/
def validate_sql_query (parse : String → Option Validation) (llm_response : String) :
    Option Validation :=
  let response := pyStrip llm_response
  match parse response with
  | some v => some v
  | none =>
    let json_start : Int := str_find '\x7b' response
    let json_end : Int := str_rfind '\x7d' response + 1
    if json_start ≥ 0 ∧ json_end > json_start then
      parse (strSlice response json_start.toNat json_end.toNat)
    else
      none

/-! ### Executor (`sql_handler.py`: `execute_sql_query`) -/

/-- What the SQLite store reports for one statement: either an
`sqlite3.Error` raised by `cursor.execute`, or a cursor whose `description`
is `some` column-name list (result-producing statements) or `none` (DML such
as INSERT/UPDATE), together with the already-stringified fetched rows. -/
inductive StoreResult
  | sqlite_error (msg : String)
  | result_set (description : Option (List String)) (results : List (List String))
deriving DecidableEq

/-- `execute_sql_query`, lines 54–72 of `sql_handler.py`, as a function of the
store response.  The `except` clause catches only `sqlite3.Error`; iterating a
`None` cursor description raises an uncaught `TypeError`. -/
def execute_sql_query (store : StoreResult) : Except PyError String :=
  match store with
  | .sqlite_error msg => .ok ("Error executing SQL query: " ++ msg)
  | .result_set none _ =>
    .error (.typeError "argument of type NoneType is not iterable")
  | .result_set (some columns) results =>
    if results.isEmpty then .ok "No results found."
    else
      let hdr := pyJoin " | " columns
      let init := "\nResults:\n" ++ hdr ++ "\n" ++ (List.replicate hdr.length '-').asString ++ "\n"
      .ok (results.foldl (fun output row => output ++ pyJoin " | " row ++ "\n") init)

/-- One pipe-delimited line per row, each terminated by a newline: the closed
form of the row-rendering loop of `execute_sql_query`. -/
def rowLines : List (List String) → String
  | [] => ""
  | row :: rest => pyJoin " | " row ++ "\n" ++ rowLines rest

/-! ### SQL flow confirmation and execution (`sql_handler.py`: `handle_sql_query`) -/

/-- Terminal outcome of one SQL turn: the printed execution output, or a
cancellation with its printed notice. -/
inductive SqlTurn
  | executed (output : String)
  | cancelled (notice : String)
deriving DecidableEq

/-- Observable trace of the confirmation/execution tail of the SQL flow:
whether the enhancement-tradeoff prompt was shown, and how the turn ended
(`Except` because execution can raise past this handler). -/
structure SqlHandlerTrace where
  prompted : Bool
  outcome : Except PyError SqlTurn

/-- `handle_sql_query`, lines 391–401 of `sql_handler.py` (the part from the
validation check on): prompts for confirmation only when the validation is
truthy and lists potential enhancements; any answer other than `y` (after
`lower()`) cancels without executing; otherwise the statement is executed. -/
def handle_sql_query (validation : Option Validation) (proceed_input : String)
    (store : StoreResult) : SqlHandlerTrace :=
  match validation with
  | some v =>
    if v.potential_enhancements ≠ [] then
      if pyLower proceed_input = "y" then
        ⟨true, (execute_sql_query store).map SqlTurn.executed⟩
      else
        ⟨true, .ok (.cancelled "Query execution cancelled.")⟩
    else ⟨false, (execute_sql_query store).map SqlTurn.executed⟩
  | none => ⟨false, (execute_sql_query store).map SqlTurn.executed⟩

/-! ### Preference collector (`sql_handler.py`: `get_user_preferences`) -/

/-- The structured analysis produced by `analyze_sql_request`: four JSON
arrays of strings. -/
structure Analysis where
  clarifying_questions : List String
  query_variations : List String
  considerations : List String
  suggested_filters : List String
deriving DecidableEq

/-- A value stored in the preferences dict: a free-text answer, a selected
variation number, or a filter flag. -/
inductive PrefValue
  | answerText (s : String)
  | variationNumber (n : Nat)
  | filterFlag (b : Bool)
deriving DecidableEq

/-- `get_user_preferences`, lines 167–206 of `sql_handler.py`.  Interactive
input is modelled positionally: `answer_input i` (resp. `filter_input i`) is
the reply to the `i`-th clarifying question (resp. filter confirmation, which
the code lowercases without stripping), and `choice_input` is the variation
selection (stripped, then accepted only as a digit string in
`[1, len(query_variations)]`).  The result lists the recorded dict entries in
insertion order. -/
def get_user_preferences (analysis : Analysis) (answer_input : Nat → String)
    (choice_input : String) (filter_input : Nat → String) :
    List (String × PrefValue) :=
  let answers := (List.range analysis.clarifying_questions.length).filterMap fun j =>
    let answer := pyStrip (answer_input (j + 1))
    if answer ≠ "" then some ("answer_" ++ natRepr (j + 1), PrefValue.answerText answer)
    else none
  let variations :=
    if analysis.query_variations ≠ [] then
      match pyInt? (pyStrip choice_input) with
      | some n =>
        if 1 ≤ n ∧ n ≤ analysis.query_variations.length then
          [("selected_variation", PrefValue.variationNumber n)]
        else []
      | none => []
    else []
  let filters := (List.range analysis.suggested_filters.length).filterMap fun j =>
    if pyLower (filter_input (j + 1)) = "y" then
      some ("filter_" ++ natRepr (j + 1), PrefValue.filterFlag true)
    else none
  answers ++ variations ++ filters

/-! ### API router (`api_handler.py`) -/

/-- The normalization table of `normalize_company_name`, in Python dict
insertion order (iteration order is significant). -/
def company_mapping : List (String × String) :=
  [("apple", "Apple Inc."), ("microsoft", "Microsoft Corp")]

/-- `normalize_company_name`, lines 5–28 of `api_handler.py`. -/
def normalize_company_name (company_name : String) : String :=
  let cleaned_name := pyStrip (pyLower company_name)
  match company_mapping.find? (fun kv => pyContains kv.1 cleaned_name) with
  | some kv => kv.2
  | none =>
    if pyContains "microsoft" cleaned_name || pyContains "msft" cleaned_name then
      "Microsoft Corp"
    else if pyContains "apple" cleaned_name then
      "Apple Inc."
    else company_name

/-- The fixed list of known company names in `extract_company_name`. -/
def common_companies : List String :=
  ["apple", "microsoft", "google", "amazon", "tesla"]

/-- `extract_company_name`, lines 30–39 of `api_handler.py`: first known
company whose lowercased name occurs in the lowercased query, normalized;
`"NONE"` when none occurs. -/
def extract_company_name (user_query : String) : String :=
  match common_companies.find? (fun company => pyContains (pyLower company) (pyLower user_query)) with
  | some company => normalize_company_name company
  | none => "NONE"

/-- Which lookup `handle_api_query` performs against the mock source. -/
inductive ApiTarget
  | all
  | company (name : String)
deriving DecidableEq

/-- The dispatch of `handle_api_query`, lines 145–155 of `api_handler.py`:
fetch all companies when the extracted identity upper-cases to `"NONE"`,
otherwise fetch that single company. -/
def api_query_target (user_query : String) : ApiTarget :=
  let company_name := extract_company_name user_query
  if pyUpper company_name = "NONE" then .all else .company company_name

/-! ### Basic SQL generator (`sql_handler.py`: `generate_sql_query`) -/

/-- The prompt text built by `generate_sql_query` (the `PromptTemplate` with
`schema` and `query` substituted). -/
def sql_prompt (schema : String) (query : String) : String :=
  "Given the following SQL table schema:\n" ++ schema ++
  "\n\nConvert this natural language query into SQL: " ++ query ++
  "\n\nImportant: Return ONLY the raw SQL query without any markdown formatting, quotes, or explanations.\nExample format:\nSELECT * FROM table WHERE condition;\n\nYour SQL query:"

/-- `generate_sql_query`, lines 30–52 of `sql_handler.py`: invoke the
completion collaborator on the prompt and return `.content.strip()`. -/
def generate_sql_query (llm : String → String) (schema_info : String) (user_query : String) :
    String :=
  pyStrip (llm (sql_prompt schema_info user_query))

/-! ### Orchestrator loop (`myFirstAi.py`: `chat`) -/

/-- One turn body inside the `try` of `chat`: classify via `route_query`
(the completion response for the classification prompt is
`route_response user_query`), then dispatch to the routed handler.  Handlers
are modelled as fallible functions since analysis parsing, execution, and the
collaborators can raise. -/
def run_turn (route_response : String → String)
    (handler : QueryType → String → Except PyError String) (user_query : String) :
    Except PyError String :=
  match route_query (route_response user_query) with
  | .error e => .error e
  | .ok t => handler t user_query

/-- `chat`, lines 92–120 of `myFirstAi.py`, over a finite stream of user
inputs: strip the input, stop on `exit`, re-prompt on empty input, otherwise
run the turn with every exception caught and printed.  The result is the list
of per-turn responses (one printed line per processed input). -/
def chat (route_response : String → String)
    (handler : QueryType → String → Except PyError String) : List String → List String
  | [] => []
  | input :: rest =>
    let user_query := pyStrip input
    if pyLower user_query = "exit" then ["Goodbye! 👋"]
    else if user_query = "" then
      "⚠️ Please enter a question or command." :: chat route_response handler rest
    else
      (match run_turn route_response handler user_query with
       | .ok out => out
       | .error e => "⚠️ Error: " ++ e.message) :: chat route_response handler rest

/-! ## Claims -/

/-- C1: `route_query` returns the route SQL, API, or GENERAL if and only if
the completion response, after trimming whitespace, equals exactly
(case-sensitively) the literal token `"SQL"`, `"API"`, or `"GENERAL"`
respectively; every other response raises a `ValueError` for the current
turn — no fallback classification, no retry. -/
theorem C1_route_query_exact_token_match (c : String) :
    (route_query c = .ok QueryType.SQL ↔ pyStrip c = "SQL") ∧
    (route_query c = .ok QueryType.API ↔ pyStrip c = "API") ∧
    (route_query c = .ok QueryType.LLM ↔ pyStrip c = "GENERAL") ∧
    (pyStrip c ∉ (["SQL", "API", "GENERAL"] : List String) →
      route_query c = .error (PyError.valueError (pyStrip c))) := by
  unfold route_query
  by_cases h1 : pyStrip c = "SQL" <;>
    by_cases h2 : pyStrip c = "API" <;>
      by_cases h3 : pyStrip c = "GENERAL" <;>
        simp_all

/-- Witness for C1: a padded exact token is accepted; a lowercase token is a
fatal `ValueError` with no fallback. -/
theorem C1_route_query_witness :
    route_query " SQL \n" = .ok QueryType.SQL ∧
    route_query "sql" = .error (PyError.valueError "sql") :=
  ⟨(C1_route_query_exact_token_match " SQL \n").1.mpr (by decide),
   (C1_route_query_exact_token_match "sql").2.2.2 (by decide)⟩

/-- C8: the basic SQL generator returns exactly the completion response with
leading and trailing whitespace stripped and no other modification; in
particular markdown code fences in the response are retained in the returned
statement. -/
theorem C8_generator_strips_only (llm : String → String) (schema_info user_query : String) :
    generate_sql_query llm schema_info user_query =
      pyStrip (llm (sql_prompt schema_info user_query)) ∧
    (pyContains "```" (pyStrip (llm (sql_prompt schema_info user_query))) = true →
      pyContains "```" (generate_sql_query llm schema_info user_query) = true) := by
  exact ⟨rfl, fun h => h⟩

/-- Witness for C8: a completion wrapped in markdown fences is returned with
the fences retained (only the surrounding whitespace is stripped). -/
theorem C8_generator_witness :
    generate_sql_query (fun _ => " ```sql\nSELECT 1;\n``` ") "s" "q" =
      "```sql\nSELECT 1;\n```" ∧
    pyContains "```" (generate_sql_query (fun _ => " ```sql\nSELECT 1;\n``` ") "s" "q") = true := by
  refine ⟨?_, (C8_generator_strips_only (fun _ => " ```sql\nSELECT 1;\n``` ") "s" "q").2 (by decide)⟩
  rw [(C8_generator_strips_only (fun _ => " ```sql\nSELECT 1;\n``` ") "s" "q").1]
  decide

/-- C2: the validator applies exactly three tiers in order: (1) parse the
whole (stripped) response as JSON and return the result on success; (2) on
failure, take the substring from the first opening brace to the last closing
brace inclusive and return its parse on success; (3) otherwise return absent
(`none`) without raising — in particular text containing no balanced braces
yields absent. -/
theorem C2_validator_three_tier_parse (parse : String → Option Validation) (c : String) :
    (∀ v, parse (pyStrip c) = some v → validate_sql_query parse c = some v) ∧
    (parse (pyStrip c) = none →
      str_find '\x7b' (pyStrip c) ≥ 0 →
      str_rfind '\x7d' (pyStrip c) + 1 > str_find '\x7b' (pyStrip c) →
      validate_sql_query parse c =
        parse (strSlice (pyStrip c) (str_find '\x7b' (pyStrip c)).toNat
          (str_rfind '\x7d' (pyStrip c) + 1).toNat)) ∧
    (parse (pyStrip c) = none →
      ¬(str_find '\x7b' (pyStrip c) ≥ 0 ∧
        str_rfind '\x7d' (pyStrip c) + 1 > str_find '\x7b' (pyStrip c)) →
      validate_sql_query parse c = none) := by
  refine ⟨fun v hv => ?_, fun hn h1 h2 => ?_, fun hn h12 => ?_⟩
  · unfold validate_sql_query
    dsimp only
    rw [hv]
  · unfold validate_sql_query
    dsimp only
    rw [hn]
    have hc : str_find '\x7b' (pyStrip c) ≥ 0 ∧
        str_rfind '\x7d' (pyStrip c) + 1 > str_find '\x7b' (pyStrip c) := ⟨h1, h2⟩
    rw [if_pos hc]
  · unfold validate_sql_query
    dsimp only
    rw [hn]
    simp only [if_neg h12]

/-- The concrete `json.loads` stub used to witness C2: it recognizes exactly
one four-field critique object. -/
def parseValidationStub (s : String) : Option Validation :=
  if s = "\x7b\"strengths\": [], \"potential_enhancements\": [\"e1\"], \"business_considerations\": [], \"suggested_variations\": []\x7d" then
    some ⟨[], ["e1"], [], []⟩
  else none

set_option maxRecDepth 8192 in
/-- Witness for C2: the three tiers on concrete responses — pure JSON is
parsed directly, JSON wrapped in prose is recovered from the brace-to-brace
substring, and brace-free text yields absent. -/
theorem C2_validator_witness :
    validate_sql_query parseValidationStub
      " \x7b\"strengths\": [], \"potential_enhancements\": [\"e1\"], \"business_considerations\": [], \"suggested_variations\": []\x7d " =
      some ⟨[], ["e1"], [], []⟩ ∧
    validate_sql_query parseValidationStub
      "Here is my critique: \x7b\"strengths\": [], \"potential_enhancements\": [\"e1\"], \"business_considerations\": [], \"suggested_variations\": []\x7d Hope it helps." =
      some ⟨[], ["e1"], [], []⟩ ∧
    validate_sql_query parseValidationStub "I cannot produce JSON today." = none := by
  refine ⟨?_, ?_, ?_⟩
  · exact (C2_validator_three_tier_parse parseValidationStub _).1 ⟨[], ["e1"], [], []⟩ (by decide)
  · rw [(C2_validator_three_tier_parse parseValidationStub
      "Here is my critique: \x7b\"strengths\": [], \"potential_enhancements\": [\"e1\"], \"business_considerations\": [], \"suggested_variations\": []\x7d Hope it helps.").2.1
      (by decide) (by decide) (by decide)]
    decide
  · exact (C2_validator_three_tier_parse parseValidationStub
      "I cannot produce JSON today.").2.2 (by decide) (by decide)

/-- C3: the proceed/cancel confirmation before execution occurs if and only
if validation is present and its `potential_enhancements` list is non-empty;
when validation is absent the flow proceeds directly to execution with no
enhancement-tradeoff confirmation; and when the prompt occurs and the user
declines, the statement is never executed, no error is raised, and a
cancellation notice is shown. -/
theorem C3_confirmation_gate (validation : Option Validation) (proceed_input : String)
    (store : StoreResult) :
    ((handle_sql_query validation proceed_input store).prompted = true ↔
      ∃ v, validation = some v ∧ v.potential_enhancements ≠ []) ∧
    (validation = none →
      handle_sql_query validation proceed_input store =
        ⟨false, (execute_sql_query store).map SqlTurn.executed⟩) ∧
    ((handle_sql_query validation proceed_input store).prompted = true →
      pyLower proceed_input ≠ "y" →
      (handle_sql_query validation proceed_input store).outcome =
        .ok (.cancelled "Query execution cancelled.")) := by
  match validation with
  | none => simp [handle_sql_query]
  | some v =>
    by_cases he : v.potential_enhancements = [] <;>
      by_cases hy : pyLower proceed_input = "y" <;>
        simp_all [handle_sql_query]

/-- Witness for C3: with a validation listing one enhancement and the answer
`n`, the prompt is shown and the turn ends in cancellation (never executed,
no error); with validation absent, the flow goes straight to execution. -/
theorem C3_confirmation_witness :
    (handle_sql_query (some ⟨[], ["add an index"], [], []⟩) "n"
        (.result_set (some ["id"]) [["1"]])).outcome =
      .ok (.cancelled "Query execution cancelled.") ∧
    handle_sql_query none "n" (.result_set (some ["id"]) [["1"]]) =
      ⟨false, .ok (.executed "\nResults:\nid\n--\n1\n")⟩ := by
  constructor
  · exact (C3_confirmation_gate (some ⟨[], ["add an index"], [], []⟩) "n"
      (.result_set (some ["id"]) [["1"]])).2.2 (by decide) (by decide)
  · rw [(C3_confirmation_gate none "n" (.result_set (some ["id"]) [["1"]])).2.1 rfl]
    have : execute_sql_query (.result_set (some ["id"]) [["1"]]) =
        .ok "\nResults:\nid\n--\n1\n" := by decide
    rw [this]
    rfl

/-- The row-accumulation loop of `execute_sql_query` appends exactly one
pipe-delimited, newline-terminated line per fetched row. -/
theorem foldl_rowLines (rows : List (List String)) (acc : String) :
    rows.foldl (fun output row => output ++ pyJoin " | " row ++ "\n") acc =
      acc ++ rowLines rows := by
  induction rows generalizing acc with
  | nil => simp [rowLines, String.append_empty]
  | cons row rest ih =>
    rw [List.foldl_cons, ih]
    simp [rowLines, String.append_assoc]

/-- Counterexample for C4: the claim says the executor never raises, but for
a statement that executes successfully with no result columns (a DML
statement: `cursor.description` is `None`), `execute_sql_query` raises an
uncaught `TypeError` instead of returning any of the three text outcomes. -/
theorem C4_counterexample_dml_statement_raises :
    execute_sql_query (StoreResult.result_set none []) =
      .error (PyError.typeError "argument of type NoneType is not iterable") := rfl

/-- C4 (amended): for every SQL statement whose store outcome is a reported
execution error or a result set (`cursor.description` present), the executor
produces exactly one of three distinguishable text outcomes without raising:
a store-reported error becomes a natural-language error description
(recovered, not fatal); zero-row success becomes the fixed no-results
indicator; n ≥ 1 rows become a rendered table with a pipe-delimited header
line of the column names followed by one pipe-delimited line per row. -/
theorem C4_executor_three_text_outcomes (msg : String) (columns : List String)
    (rows : List (List String)) :
    (execute_sql_query (.sqlite_error msg) =
      .ok ("Error executing SQL query: " ++ msg)) ∧
    (execute_sql_query (.result_set (some columns) []) = .ok "No results found.") ∧
    (rows ≠ [] →
      execute_sql_query (.result_set (some columns) rows) =
        .ok ("\nResults:\n" ++ pyJoin " | " columns ++ "\n" ++
          (List.replicate (pyJoin " | " columns).length '-').asString ++ "\n" ++
          rowLines rows)) := by
  refine ⟨rfl, rfl, fun hr => ?_⟩
  unfold execute_sql_query
  dsimp only
  rw [if_neg (by simpa [List.isEmpty_iff] using hr)]
  rw [foldl_rowLines]

/-- Witness for C4: a two-row result set renders as a header line and two
pipe-delimited data lines. -/
theorem C4_executor_witness :
    execute_sql_query (.result_set (some ["id", "name"]) [["1", "a"], ["2", "b"]]) =
      .ok "\nResults:\nid | name\n---------\n1 | a\n2 | b\n" := by
  rw [(C4_executor_three_text_outcomes "x" ["id", "name"] [["1", "a"], ["2", "b"]]).2.2
    (by decide)]
  decide

/-- C9: the executor's recovery is limited to store-typed errors — only
`sqlite3.Error` is caught and turned into the error-description text, while a
successful statement with no result columns (`cursor.description = None`,
e.g. INSERT or UPDATE) raises a `TypeError` that escapes the component
boundary as an exception. -/
theorem C9_executor_catches_only_sqlite_errors (msg : String) (results : List (List String)) :
    execute_sql_query (StoreResult.sqlite_error msg) =
      .ok ("Error executing SQL query: " ++ msg) ∧
    execute_sql_query (StoreResult.result_set none results) =
      .error (PyError.typeError "argument of type NoneType is not iterable") :=
  ⟨rfl, rfl⟩

/-- C6: a query containing both `msft` and `microsoft` (and not the
earlier-tested name `apple`) is normalized to the canonical identity
`"Microsoft Corp"` regardless of the order of the two substrings; a query
naming no known company extracts the `"NONE"` sentinel, and
`handle_api_query` then queries the source for all companies. -/
theorem C6_microsoft_precedence_and_none_sentinel (q : String) :
    (pyContains "msft" (pyLower q) = true →
      pyContains "microsoft" (pyLower q) = true →
      pyContains "apple" (pyLower q) = false →
      extract_company_name q = "Microsoft Corp") ∧
    ((∀ c ∈ common_companies, pyContains c (pyLower q) = false) →
      extract_company_name q = "NONE" ∧ api_query_target q = ApiTarget.all) := by
  constructor
  · intro _ hms hap
    have e1 : pyContains (pyLower "apple") (pyLower q) = false := by
      rw [show pyLower "apple" = "apple" from by decide]; exact hap
    have e2 : pyContains (pyLower "microsoft") (pyLower q) = true := by
      rw [show pyLower "microsoft" = "microsoft" from by decide]; exact hms
    unfold extract_company_name common_companies
    simp only [List.find?, e1, e2]
    decide
  · intro h
    have e1 : pyContains (pyLower "apple") (pyLower q) = false := by
      rw [show pyLower "apple" = "apple" from by decide]; exact h "apple" (by decide)
    have e2 : pyContains (pyLower "microsoft") (pyLower q) = false := by
      rw [show pyLower "microsoft" = "microsoft" from by decide]
      exact h "microsoft" (by decide)
    have e3 : pyContains (pyLower "google") (pyLower q) = false := by
      rw [show pyLower "google" = "google" from by decide]; exact h "google" (by decide)
    have e4 : pyContains (pyLower "amazon") (pyLower q) = false := by
      rw [show pyLower "amazon" = "amazon" from by decide]; exact h "amazon" (by decide)
    have e5 : pyContains (pyLower "tesla") (pyLower q) = false := by
      rw [show pyLower "tesla" = "tesla" from by decide]; exact h "tesla" (by decide)
    have hx : extract_company_name q = "NONE" := by
      unfold extract_company_name common_companies
      simp only [List.find?, e1, e2, e3, e4, e5]
    refine ⟨hx, ?_⟩
    unfold api_query_target
    rw [hx]
    decide

/-- Witness for C6: both substring orders of `msft`/`microsoft` normalize to
the canonical Microsoft identity, and a company-free query is routed to the
all-companies lookup. -/
theorem C6_microsoft_witness :
    extract_company_name "Compare MSFT against Microsoft" = "Microsoft Corp" ∧
    extract_company_name "is microsoft or msft the right ticker" = "Microsoft Corp" ∧
    extract_company_name "Show the market summary" = "NONE" ∧
    api_query_target "Show the market summary" = ApiTarget.all := by
  refine ⟨?_, ?_, ?_, ?_⟩
  · exact (C6_microsoft_precedence_and_none_sentinel "Compare MSFT against Microsoft").1
      (by decide) (by decide) (by decide)
  · exact (C6_microsoft_precedence_and_none_sentinel "is microsoft or msft the right ticker").1
      (by decide) (by decide) (by decide)
  · exact ((C6_microsoft_precedence_and_none_sentinel "Show the market summary").2
      (by decide)).1
  · exact ((C6_microsoft_precedence_and_none_sentinel "Show the market summary").2
      (by decide)).2

/-- C10: a query containing `google`, `amazon`, or `tesla` (and neither
`apple` nor `microsoft`, which are tested earlier in the known-company list)
extracts the raw lowercase company word itself — not the `"NONE"` sentinel
and not a canonical identity, since the normalization table has no rule for
these names — so `handle_api_query` takes the single-company lookup path with
that non-canonical identity. -/
theorem C10_unmapped_companies_raw_identity (q : String) :
    (pyContains "google" (pyLower q) || pyContains "amazon" (pyLower q) ||
      pyContains "tesla" (pyLower q)) = true →
    pyContains "apple" (pyLower q) = false →
    pyContains "microsoft" (pyLower q) = false →
    extract_company_name q ∈ (["google", "amazon", "tesla"] : List String) ∧
    extract_company_name q ≠ "NONE" ∧
    extract_company_name q ∉ (["Apple Inc.", "Microsoft Corp"] : List String) ∧
    api_query_target q = ApiTarget.company (extract_company_name q) := by
  intro hgat hap hms
  have e1 : pyContains (pyLower "apple") (pyLower q) = false := by
    rw [show pyLower "apple" = "apple" from by decide]; exact hap
  have e2 : pyContains (pyLower "microsoft") (pyLower q) = false := by
    rw [show pyLower "microsoft" = "microsoft" from by decide]; exact hms
  have main : extract_company_name q ∈ (["google", "amazon", "tesla"] : List String) := by
    unfold extract_company_name common_companies
    by_cases hg : pyContains "google" (pyLower q) = true
    · have e3 : pyContains (pyLower "google") (pyLower q) = true := by
        rw [show pyLower "google" = "google" from by decide]; exact hg
      simp only [List.find?, e1, e2, e3]
      decide
    · have e3 : pyContains (pyLower "google") (pyLower q) = false := by
        rw [show pyLower "google" = "google" from by decide]
        exact Bool.not_eq_true _ ▸ eq_false_of_ne_true hg
      by_cases ha : pyContains "amazon" (pyLower q) = true
      · have e4 : pyContains (pyLower "amazon") (pyLower q) = true := by
          rw [show pyLower "amazon" = "amazon" from by decide]; exact ha
        simp only [List.find?, e1, e2, e3, e4]
        decide
      · have e4 : pyContains (pyLower "amazon") (pyLower q) = false := by
          rw [show pyLower "amazon" = "amazon" from by decide]
          exact Bool.not_eq_true _ ▸ eq_false_of_ne_true ha
        have ht : pyContains "tesla" (pyLower q) = true := by
          rcases Bool.or_eq_true_iff.mp hgat with hor | h3
          · rcases Bool.or_eq_true_iff.mp hor with h1 | h2
            · exact absurd h1 hg
            · exact absurd h2 ha
          · exact h3
        have e5 : pyContains (pyLower "tesla") (pyLower q) = true := by
          rw [show pyLower "tesla" = "tesla" from by decide]; exact ht
        simp only [List.find?, e1, e2, e3, e4, e5]
        decide
  have main' : extract_company_name q = "google" ∨ extract_company_name q = "amazon" ∨
      extract_company_name q = "tesla" := by simpa using main
  refine ⟨main, ?_, ?_, ?_⟩
  · rcases main' with h | h | h <;> rw [h] <;> decide
  · rcases main' with h | h | h <;> rw [h] <;> decide
  · unfold api_query_target
    rcases main' with h | h | h <;> rw [h] <;> decide

/-- Witness for C10: a Tesla query yields the raw lowercase identity
`"tesla"` and the single-company lookup path. -/
theorem C10_unmapped_companies_witness :
    extract_company_name "Is Tesla stock a buy" ∈ (["google", "amazon", "tesla"] : List String) ∧
    extract_company_name "Is Tesla stock a buy" ≠ "NONE" ∧
    extract_company_name "Is Tesla stock a buy" ∉ (["Apple Inc.", "Microsoft Corp"] : List String) ∧
    api_query_target "Is Tesla stock a buy" =
      ApiTarget.company (extract_company_name "Is Tesla stock a buy") :=
  C10_unmapped_companies_raw_identity "Is Tesla stock a buy" (by decide) (by decide) (by decide)

/-- One-step unfolding of the `chat` loop on a non-empty input stream. -/
theorem chat_cons (route_response : String → String)
    (handler : QueryType → String → Except PyError String) (input : String)
    (rest : List String) :
    chat route_response handler (input :: rest) =
      if pyLower (pyStrip input) = "exit" then ["Goodbye! 👋"]
      else if pyStrip input = "" then
        "⚠️ Please enter a question or command." :: chat route_response handler rest
      else
        (match run_turn route_response handler (pyStrip input) with
         | .ok out => out
         | .error e => "⚠️ Error: " ++ e.message) :: chat route_response handler rest := rfl

/-- C7: every exception raised while processing a single query — including
classification failures (`route_query` raising `ValueError`) and analysis
parse failures raised by the routed handler — is caught by the outermost
loop, printed as an error line, and the loop continues with the next query:
every non-exit input yields exactly one printed response and the remaining
stream is still processed, so no turn exception ever terminates the
process. -/
theorem C7_turn_errors_never_terminate (route_response : String → String)
    (handler : QueryType → String → Except PyError String) :
    (∀ input rest, pyLower (pyStrip input) ≠ "exit" →
      ∃ line, chat route_response handler (input :: rest) =
        line :: chat route_response handler rest) ∧
    (∀ input rest e, pyLower (pyStrip input) ≠ "exit" → pyStrip input ≠ "" →
      run_turn route_response handler (pyStrip input) = .error e →
      chat route_response handler (input :: rest) =
        ("⚠️ Error: " ++ e.message) :: chat route_response handler rest) ∧
    (∀ inputs, (∀ q ∈ inputs, pyLower (pyStrip q) ≠ "exit") →
      (chat route_response handler inputs).length = inputs.length) := by
  refine ⟨?_, ?_, ?_⟩
  · intro input rest hexit
    rw [chat_cons, if_neg hexit]
    by_cases hempty : pyStrip input = ""
    · rw [if_pos hempty]
      exact ⟨_, rfl⟩
    · rw [if_neg hempty]
      exact ⟨_, rfl⟩
  · intro input rest e hexit hempty herr
    rw [chat_cons, if_neg hexit, if_neg hempty, herr]
  · intro inputs
    induction inputs with
    | nil => intro _; rfl
    | cons q rest ih =>
      intro h
      have hexit := h q (List.mem_cons_self q rest)
      have hrest : ∀ x ∈ rest, pyLower (pyStrip x) ≠ "exit" :=
        fun x hx => h x (List.mem_cons_of_mem q hx)
      rw [chat_cons, if_neg hexit]
      by_cases hempty : pyStrip q = ""
      · rw [if_pos hempty]
        simp [ih hrest]
      · rw [if_neg hempty]
        simp [ih hrest]

/-- Witness for C7: with a classifier stub that always answers an invalid
token (so every turn raises `ValueError`), the error is printed and every
input of the stream is still processed — three inputs, three printed
lines. -/
theorem C7_chat_witness :
    chat (fun _ => "BANANAS") (fun _ _ => .error (.jsonDecodeError "Expecting value"))
        ["hi"] = ["⚠️ Error: BANANAS"] ∧
    (chat (fun _ => "BANANAS") (fun _ _ => .error (.jsonDecodeError "Expecting value"))
        ["hi", "", "analyze sales"]).length = 3 := by
  constructor
  · rw [(C7_turn_errors_never_terminate (fun _ => "BANANAS")
      (fun _ _ => .error (.jsonDecodeError "Expecting value"))).2.1 "hi" []
      (.valueError "BANANAS") (by decide) (by decide) (by decide)]
    rfl
  · exact (C7_turn_errors_never_terminate (fun _ => "BANANAS")
      (fun _ _ => .error (.jsonDecodeError "Expecting value"))).2.2
      ["hi", "", "analyze sales"] (by decide)

/-! ### Supporting lemmas for the preference collector -/

theorem ofDigits10_digitsFuel (fuel : Nat) : ∀ n, n ≤ fuel → ofDigits10 (digitsFuel fuel n) = n := by
  induction fuel with
  | zero =>
    intro n hn
    have h0 : n = 0 := Nat.le_zero.mp hn
    subst h0
    rfl
  | succ fuel ih =>
    intro n hn
    by_cases h0 : n = 0
    · subst h0
      simp [digitsFuel, ofDigits10]
    · have h1 : n / 10 < n := Nat.div_lt_self (Nat.pos_of_ne_zero h0) (by norm_num)
      have h2 : n / 10 ≤ fuel := by omega
      simp only [digitsFuel, if_neg h0, ofDigits10, ih _ h2]
      omega

theorem digitsFuel_lt_ten (fuel : Nat) : ∀ n d, d ∈ digitsFuel fuel n → d < 10 := by
  induction fuel with
  | zero => intro n d hd; simp [digitsFuel] at hd
  | succ fuel ih =>
    intro n d hd
    by_cases h0 : n = 0
    · simp [digitsFuel, h0] at hd
    · simp only [digitsFuel, if_neg h0, List.mem_cons] at hd
      rcases hd with rfl | hd
      · exact Nat.mod_lt _ (by norm_num)
      · exact ih _ d hd

theorem digitChar_inj (d e : Nat) (hd : d < 10) (he : e < 10) (h : digitChar d = digitChar e) :
    d = e := by
  interval_cases d <;> interval_cases e <;> first | rfl | exact absurd h (by decide)

theorem map_digitChar_inj (l1 : List Nat) :
    ∀ l2, (∀ d ∈ l1, d < 10) → (∀ d ∈ l2, d < 10) →
      l1.map digitChar = l2.map digitChar → l1 = l2 := by
  induction l1 with
  | nil =>
    intro l2 _ _ h
    cases l2 with
    | nil => rfl
    | cons e m => simp at h
  | cons d l ih =>
    intro l2 h1 h2 h
    cases l2 with
    | nil => simp at h
    | cons e m =>
      simp only [List.map_cons, List.cons.injEq] at h
      have hde := digitChar_inj d e (h1 d (by simp)) (h2 e (by simp)) h.1
      subst hde
      rw [ih m (fun x hx => h1 x (by simp [hx])) (fun x hx => h2 x (by simp [hx])) h.2]

theorem asString_inj {l1 l2 : List Char} (h : l1.asString = l2.asString) : l1 = l2 :=
  congrArg String.data h

theorem natRepr_inj (m n : Nat) (h : natRepr m = natRepr n) : m = n := by
  unfold natRepr at h
  by_cases hm : m = 0 <;> by_cases hn : n = 0
  · omega
  · exfalso
    rw [if_pos hm, if_neg hn] at h
    have hl : (['0'] : List Char) = ((digitsFuel n n).map digitChar).reverse :=
      congrArg String.data h
    have hmap : (digitsFuel n n).map digitChar = ['0'] := by
      rw [← List.reverse_reverse ((digitsFuel n n).map digitChar), ← hl]
      rfl
    cases hds : digitsFuel n n with
    | nil => rw [hds] at hmap; simp at hmap
    | cons d ds =>
      rw [hds] at hmap
      simp only [List.map_cons, List.cons.injEq, List.map_eq_nil_iff] at hmap
      have hd10 : d < 10 := digitsFuel_lt_ten n n d (hds ▸ List.mem_cons_self d ds)
      have hd0 : d = 0 := digitChar_inj d 0 hd10 (by norm_num) (by rw [hmap.1]; rfl)
      have := ofDigits10_digitsFuel n n le_rfl
      rw [hds, hmap.2, hd0] at this
      simp [ofDigits10] at this
      exact hn this.symm
  · exfalso
    rw [if_neg hm, if_pos hn] at h
    have hl : ((digitsFuel m m).map digitChar).reverse = (['0'] : List Char) :=
      congrArg String.data h
    have hmap : (digitsFuel m m).map digitChar = ['0'] := by
      rw [← List.reverse_reverse ((digitsFuel m m).map digitChar), hl]
      rfl
    cases hds : digitsFuel m m with
    | nil => rw [hds] at hmap; simp at hmap
    | cons d ds =>
      rw [hds] at hmap
      simp only [List.map_cons, List.cons.injEq, List.map_eq_nil_iff] at hmap
      have hd10 : d < 10 := digitsFuel_lt_ten m m d (hds ▸ List.mem_cons_self d ds)
      have hd0 : d = 0 := digitChar_inj d 0 hd10 (by norm_num) (by rw [hmap.1]; rfl)
      have := ofDigits10_digitsFuel m m le_rfl
      rw [hds, hmap.2, hd0] at this
      simp [ofDigits10] at this
      exact hm this.symm
  · rw [if_neg hm, if_neg hn] at h
    have hl := asString_inj h
    have hmap := congrArg List.reverse hl
    rw [List.reverse_reverse, List.reverse_reverse] at hmap
    have hds := map_digitChar_inj (digitsFuel m m) (digitsFuel n n)
      (fun d hd => digitsFuel_lt_ten m m d hd) (fun d hd => digitsFuel_lt_ten n n d hd) hmap
    have h1 := ofDigits10_digitsFuel m m le_rfl
    have h2 := ofDigits10_digitsFuel n n le_rfl
    rw [hds, h2] at h1
    exact h1.symm

theorem string_append_left_cancel (a x y : String) (h : a ++ x = a ++ y) : x = y := by
  have hd : a.data ++ x.data = a.data ++ y.data := congrArg String.data h
  exact String.ext (List.append_cancel_left hd)

theorem answer_key_inj (i j : Nat) (h : "answer_" ++ natRepr i = "answer_" ++ natRepr j) :
    i = j :=
  natRepr_inj i j (string_append_left_cancel _ _ _ h)

theorem filter_key_inj (i j : Nat) (h : "filter_" ++ natRepr i = "filter_" ++ natRepr j) :
    i = j :=
  natRepr_inj i j (string_append_left_cancel _ _ _ h)

theorem answer_key_ne_selected (s : String) : "answer_" ++ s ≠ "selected_variation" := by
  intro h
  have h1 : (some 'a' : Option Char) = some 's' := congrArg (fun t => t.data.head?) h
  simp at h1

theorem filter_key_ne_selected (s : String) : "filter_" ++ s ≠ "selected_variation" := by
  intro h
  have h1 : (some 'f' : Option Char) = some 's' := congrArg (fun t => t.data.head?) h
  simp at h1

theorem answer_key_ne_filter_key (s t : String) : "answer_" ++ s ≠ "filter_" ++ t := by
  intro h
  have h1 : (some 'a' : Option Char) = some 'f' := congrArg (fun u => u.data.head?) h
  simp at h1

theorem lookup_eq_none_of_key_ne (k : String) (l : List (String × PrefValue))
    (h : ∀ p ∈ l, p.1 ≠ k) : List.lookup k l = none := by
  induction l with
  | nil => rfl
  | cons p es ih =>
    obtain ⟨k1, v1⟩ := p
    have hk : (k == k1) = false := beq_eq_false_iff_ne.mpr fun he =>
      h (k1, v1) (List.mem_cons_self _ _) (he ▸ rfl)
    simp only [List.lookup, hk]
    exact ih fun q hq => h q (List.mem_cons_of_mem _ hq)

theorem mem_of_lookup_some (k : String) (v : PrefValue) (l : List (String × PrefValue))
    (h : List.lookup k l = some v) : (k, v) ∈ l := by
  induction l with
  | nil => simp [List.lookup] at h
  | cons p es ih =>
    obtain ⟨k1, v1⟩ := p
    by_cases he : k = k1
    · subst he
      simp only [List.lookup, beq_self_eq_true] at h
      cases h
      exact List.mem_cons_self _ _
    · have hk : (k == k1) = false := beq_eq_false_iff_ne.mpr he
      simp only [List.lookup, hk] at h
      exact List.mem_cons_of_mem _ (ih h)

/-- Any entry of the collected preferences comes from a non-skipped prompt:
a non-blank clarifying answer, an in-range numeric variation selection, or an
affirmative filter confirmation. -/
theorem mem_get_user_preferences (analysis : Analysis) (answer_input : Nat → String)
    (choice_input : String) (filter_input : Nat → String) (p : String × PrefValue)
    (hp : p ∈ get_user_preferences analysis answer_input choice_input filter_input) :
    (∃ j, j < analysis.clarifying_questions.length ∧ pyStrip (answer_input (j + 1)) ≠ "" ∧
      p = ("answer_" ++ natRepr (j + 1), PrefValue.answerText (pyStrip (answer_input (j + 1))))) ∨
    (∃ n, analysis.query_variations ≠ [] ∧ pyInt? (pyStrip choice_input) = some n ∧
      1 ≤ n ∧ n ≤ analysis.query_variations.length ∧
      p = ("selected_variation", PrefValue.variationNumber n)) ∨
    (∃ j, j < analysis.suggested_filters.length ∧ pyLower (filter_input (j + 1)) = "y" ∧
      p = ("filter_" ++ natRepr (j + 1), PrefValue.filterFlag true)) := by
  unfold get_user_preferences at hp
  dsimp only at hp
  rcases List.mem_append.mp hp with hav | hf
  · rcases List.mem_append.mp hav with ha | hv
    · left
      obtain ⟨j, hj, hfj⟩ := List.mem_filterMap.mp ha
      by_cases hb : pyStrip (answer_input (j + 1)) ≠ ""
      · rw [if_pos hb] at hfj
        cases hfj
        exact ⟨j, List.mem_range.mp hj, hb, rfl⟩
      · rw [if_neg hb] at hfj
        cases hfj
    · right; left
      by_cases hne : analysis.query_variations ≠ []
      · rw [if_pos hne] at hv
        split at hv
        · rename_i n heq
          split at hv
          · rename_i hr
            simp only [List.mem_singleton] at hv
            exact ⟨n, hne, heq, hr.1, hr.2, hv⟩
          · simp at hv
        · simp at hv
      · rw [if_neg hne] at hv
        simp at hv
  · right; right
    obtain ⟨j, hj, hfj⟩ := List.mem_filterMap.mp hf
    by_cases hy : pyLower (filter_input (j + 1)) = "y"
    · rw [if_pos hy] at hfj
      cases hfj
      exact ⟨j, List.mem_range.mp hj, hy, rfl⟩
    · rw [if_neg hy] at hfj
      cases hfj

/-- C5: the preference collector never raises (it is a total function of the
analysis and the interactive inputs) and records no entry for a skipped
prompt: a blank answer leaves no `answer_<i>` entry; a blank, non-numeric, or
out-of-range variation selection leaves no `selected_variation` entry; only
an affirmative filter response records a `filter_<i>` entry; and whenever
`selected_variation` is present its value is an integer in
`[1, len(query_variations)]`. -/
theorem C5_preferences_skip_semantics (analysis : Analysis) (answer_input : Nat → String)
    (choice_input : String) (filter_input : Nat → String) :
    (∀ i, pyStrip (answer_input i) = "" →
      List.lookup ("answer_" ++ natRepr i)
        (get_user_preferences analysis answer_input choice_input filter_input) = none) ∧
    ((∀ n, pyInt? (pyStrip choice_input) = some n →
        ¬(1 ≤ n ∧ n ≤ analysis.query_variations.length)) →
      List.lookup "selected_variation"
        (get_user_preferences analysis answer_input choice_input filter_input) = none) ∧
    (∀ i, pyLower (filter_input i) ≠ "y" →
      List.lookup ("filter_" ++ natRepr i)
        (get_user_preferences analysis answer_input choice_input filter_input) = none) ∧
    (∀ n, List.lookup "selected_variation"
        (get_user_preferences analysis answer_input choice_input filter_input) =
          some (PrefValue.variationNumber n) →
      1 ≤ n ∧ n ≤ analysis.query_variations.length) := by
  refine ⟨?_, ?_, ?_, ?_⟩
  · intro i hi
    apply lookup_eq_none_of_key_ne
    intro p hp
    rcases mem_get_user_preferences _ _ _ _ p hp with
      ⟨j, _, hb, rfl⟩ | ⟨n, _, _, _, _, rfl⟩ | ⟨j, _, _, rfl⟩
    · show "answer_" ++ natRepr (j + 1) ≠ "answer_" ++ natRepr i
      intro hkey
      have hij := answer_key_inj _ _ hkey
      exact hb (by rw [hij]; exact hi)
    · exact fun hkey => answer_key_ne_selected _ hkey.symm
    · exact fun hkey => answer_key_ne_filter_key _ _ hkey.symm
  · intro hrange
    apply lookup_eq_none_of_key_ne
    intro p hp
    rcases mem_get_user_preferences _ _ _ _ p hp with
      ⟨j, _, _, rfl⟩ | ⟨n, _, heq, h1, h2, rfl⟩ | ⟨j, _, _, rfl⟩
    · exact answer_key_ne_selected _
    · exact absurd ⟨h1, h2⟩ (hrange n heq)
    · exact filter_key_ne_selected _
  · intro i hy
    apply lookup_eq_none_of_key_ne
    intro p hp
    rcases mem_get_user_preferences _ _ _ _ p hp with
      ⟨j, _, _, rfl⟩ | ⟨n, _, _, _, _, rfl⟩ | ⟨j, _, hyj, rfl⟩
    · exact fun hkey => answer_key_ne_filter_key _ _ hkey
    · exact fun hkey => filter_key_ne_selected _ hkey.symm
    · show "filter_" ++ natRepr (j + 1) ≠ "filter_" ++ natRepr i
      intro hkey
      have hij := filter_key_inj _ _ hkey
      exact hy (by rw [← hij]; exact hyj)
  · intro n hl
    have hmem := mem_of_lookup_some _ _ _ hl
    rcases mem_get_user_preferences _ _ _ _ _ hmem with
      ⟨j, _, _, hpj⟩ | ⟨m, _, _, h1, h2, hpn⟩ | ⟨j, _, _, hpj⟩
    · exact absurd (congrArg Prod.fst hpj).symm (answer_key_ne_selected _)
    · rw [Prod.mk.injEq] at hpn
      have hnm : n = m := by
        have := hpn.2
        injection this
      rw [hnm]
      exact ⟨h1, h2⟩
    · exact absurd (congrArg Prod.fst hpj).symm (filter_key_ne_selected _)

/-- Witness for C5: one blank answer, the out-of-range selection `5` among
two variations, and a negative filter reply leave an empty preferences
mapping. -/
theorem C5_preferences_witness :
    List.lookup "answer_1"
      (get_user_preferences ⟨["q1"], ["v1", "v2"], [], ["f1"]⟩ (fun _ => "  ") "5"
        (fun _ => "no")) = none ∧
    List.lookup "selected_variation"
      (get_user_preferences ⟨["q1"], ["v1", "v2"], [], ["f1"]⟩ (fun _ => "  ") "5"
        (fun _ => "no")) = none ∧
    List.lookup "filter_1"
      (get_user_preferences ⟨["q1"], ["v1", "v2"], [], ["f1"]⟩ (fun _ => "  ") "5"
        (fun _ => "no")) = none := by
  have h := C5_preferences_skip_semantics ⟨["q1"], ["v1", "v2"], [], ["f1"]⟩ (fun _ => "  ") "5"
    (fun _ => "no")
  refine ⟨?_, h.2.1 (by decide), ?_⟩
  · have := h.1 1 (by decide)
    rwa [show ("answer_" ++ natRepr 1) = "answer_1" from by decide] at this
  · have := h.2.2.1 1 (by decide)
    rwa [show ("filter_" ++ natRepr 1) = "filter_1" from by decide] at this

end ConvAI
